import Mathlib

set_option linter.unusedVariables false
set_option maxRecDepth 8192

/-!
Shallow embedding of the tool layer of the GitHub Projects V2 MCP server
(src/github_projects_mcp/server.py).  Each tool is translated to a pure
function; every call the tool makes into the underlying GitHub client is
replaced by an oracle argument of type `Except` carrying either the call
result or the exception the client raised (`GitHubClientError`, and for
the two tools that catch it, `ValueError`).  Python truthiness on optional
strings (where `None` and the empty string both count as absent) is made
explicit through `truthyOpt`.  Each tool returns, besides its output
string, the ordered list of client methods it invoked, so that claims of
the form "no network call is made" are statable.
-/

namespace GithubProjectsMcp

/-- Exceptions raised by the underlying GitHub client that the tools in
server.py catch: `GitHubClientError` everywhere, and `ValueError` in the
tools that list it in their except clause.  Python renders an exception
in an f-string as its message. -/
inductive ClientError where
  | githubClientError (message : String)
  | valueError (message : String)
  deriving DecidableEq

/-- The message of the exception, which is what a Python f-string shows. -/
def ClientError.msg : ClientError → String
  | githubClientError m => m
  | valueError m => m

/-- Python truthiness of an optional string argument: `None` and the empty
string are falsy, every other string is truthy. -/
def truthyOpt : Option String → Bool
  | none => false
  | some s => !s.isEmpty

/-- Python truthiness of an optional list argument. -/
def truthyListOpt : Option (List String) → Bool
  | none => false
  | some l => !l.isEmpty

/-- How a Python f-string renders an optional string obtained through
`dict.get`: missing keys render as the text None. -/
def pyOptStr : Option String → String
  | none => "None"
  | some s => s

/-- How a Python f-string renders an optional integer. -/
def pyOptIntStr : Option Int → String
  | none => "None"
  | some n => toString n

/-- A single-quote character, as it appears inside the messages built by
server.py. -/
def sq : String := "\x27"

/-- How a Python f-string renders a list of strings (used for the
available options and iterations in the debug messages). -/
def pyListRepr (l : List String) : String :=
  "[" ++ String.intercalate ", " (l.map (fun s => sq ++ s ++ sq)) ++ "]"

/-- The ASCII core of Python str.lower, written over the character list
so that it evaluates inside the kernel. -/
def pyLower (s : String) : String :=
  String.mk (s.toList.map Char.toLower)

/-- The ASCII core of Python str.upper, written over the character list
so that it evaluates inside the kernel. -/
def pyUpper (s : String) : String :=
  String.mk (s.toList.map Char.toUpper)

/-- Helper for the substring test: does the needle occur at some
position of the remaining character list. -/
def strContainsAux (needle : List Char) : List Char → Bool
  | [] => List.isPrefixOf needle []
  | c :: cs => List.isPrefixOf needle (c :: cs) || strContainsAux needle cs

/-- Executable substring test, used to state that an output does or does
not mention a given piece of text. -/
def strContains (hay needle : String) : Bool :=
  strContainsAux needle.toList hay.toList

/-- Executable prefix test on strings. -/
def strIsPrefixOf (p s : String) : Bool :=
  List.isPrefixOf p.toList s.toList

/-- A project row as returned by the client method get_projects. -/
structure Project where
  id : String
  number : Int
  title : String
  url : String
  deriving DecidableEq

/-- Pagination data of a page of project items. -/
structure PageInfo where
  hasNextPage : Bool
  endCursor : Option String
  deriving DecidableEq

/-- The repository sub-object of an item content payload; missing keys
are represented by `none`. -/
structure RepoInfo where
  ownerLogin : Option String
  name : Option String
  deriving DecidableEq

/-- The content payload of a project item (Issue, PullRequest or
DraftIssue); every key the formatting code reads through `dict.get` is an
`Option`. -/
structure ItemContent where
  typename : Option String
  number : Option Int
  title : Option String
  state : Option String
  url : Option String
  id : Option String
  body : Option String
  repository : Option RepoInfo
  deriving DecidableEq

/-- A project item as returned by the client method get_project_items:
an id, an optional content payload and the processed field values. -/
structure ProjItem where
  id : String
  content : Option ItemContent
  fieldValues : List (String × String)
  deriving DecidableEq

/-- The structured result of the client method get_project_items. -/
structure ItemsPage where
  items : List ProjItem
  pageInfo : PageInfo
  deriving DecidableEq

/-- The per-field record of the mapping returned by the client method
get_project_fields_details.  The id and type keys are present under the
client contract; the options and iterations keys are read with an empty
default, hence plain (possibly empty) ordered association lists. -/
structure FieldDetails where
  id : String
  type : String
  options : List (String × String)
  iterations : List (String × String)
  deriving DecidableEq

/-- The ordered field-name-to-details mapping of a project, in the order
the API declared the fields (Python dict preserves insertion order). -/
abbrev FieldsDetails := List (String × FieldDetails)

/-- The structured result of the client methods that create or add an
item; the id key is read with `dict.get` in the composed tools. -/
structure AddItem where
  id : Option String
  deriving DecidableEq

/-- The structured result of the client method create_issue. -/
structure IssueData where
  number : Option Int
  title : Option String
  url : Option String
  assigneeLogins : List String
  deriving DecidableEq

/-- What a tool run produces: the returned text and the ordered list of
client methods that were invoked during the run. -/
structure ToolResult where
  output : String
  clientCalls : List String
  deriving DecidableEq

/-- The Python value forwarded to the client by
update_project_item_field after its best-effort numeric coercion. -/
inductive PyValue where
  | str (s : String)
  | int (n : Int)
  | float (q : ℚ)
  deriving DecidableEq

/-- The `"\n".join(...)` of the date update lines used by
set_project_item_dates and the composed tools. -/
def dateLines (updates : List (String × String)) : String :=
  String.intercalate "\n" (updates.map (fun kv => "  - " ++ kv.1 ++ ": " ++ kv.2))

/-- Embeds the tool list_projects (server.py lines 42-69). -/
def list_projects (owner : String) (res : Except String (List Project)) : ToolResult :=
  match res with
  | .error e =>
    { output := "Error: Could not list projects for " ++ owner ++ ". Details: " ++ e,
      clientCalls := ["get_projects"] }
  | .ok projects =>
    if projects.isEmpty then
      { output := "No projects found for " ++ owner, clientCalls := ["get_projects"] }
    else
      { output := "Projects for " ++ owner ++ ":\n\n" ++
          String.join (projects.map (fun p =>
            "- ID: " ++ p.id ++ "\n" ++ "  Number: " ++ toString p.number ++ "\n" ++
            "  Title: " ++ p.title ++ "\n" ++ "  URL: " ++ p.url ++ "\n" ++ "\n")),
        clientCalls := ["get_projects"] }

/-- One field block of the get_project_fields output (server.py lines
93-108). -/
def formatFieldDetails (p : String × FieldDetails) : String :=
  "- Name: " ++ p.1 ++ "\n" ++ "  ID: " ++ p.2.id ++ "\n" ++ "  Type: " ++ p.2.type ++ "\n" ++
  (if p.2.type == "ProjectV2SingleSelectField" && !p.2.options.isEmpty then
    "  Options (Name: ID):\n" ++
      String.join (p.2.options.map (fun o => "    - " ++ o.1 ++ ": " ++ o.2 ++ "\n"))
   else "") ++ "\n"

/-- Embeds the tool get_project_fields (server.py lines 72-113). -/
def get_project_fields (owner : String) (project_number : Int)
    (res : Except String FieldsDetails) : ToolResult :=
  match res with
  | .error e =>
    { output := "Error: Could not get fields for project " ++ owner ++ "/" ++
        toString project_number ++ ". Details: " ++ e,
      clientCalls := ["get_project_fields_details"] }
  | .ok fields_details =>
    if fields_details.isEmpty then
      { output := "No fields found for project #" ++ toString project_number ++ " in " ++ owner,
        clientCalls := ["get_project_fields_details"] }
    else
      { output := "Fields for project #" ++ toString project_number ++ " in " ++ owner ++ ":\n\n" ++
          String.join (fields_details.map formatFieldDetails),
        clientCalls := ["get_project_fields_details"] }

/-- Embeds the tool set_project_item_dates (server.py lines 350-396):
the at-least-one-date validation happens before the client call, and the
client may raise GitHubClientError or ValueError. -/
def set_project_item_dates (owner : String) (project_number : Int) (item_id : String)
    (start_date end_date : Option String) (start_field_name end_field_name : String)
    (res : Except ClientError (List (String × String))) : ToolResult :=
  if !(truthyOpt start_date || truthyOpt end_date) then
    { output := "Error: Provide at least one of start_date or end_date", clientCalls := [] }
  else
    match res with
    | .error e =>
      { output := "Error: Could not set dates. Details: " ++ e.msg,
        clientCalls := ["set_project_item_dates"] }
    | .ok updates =>
      if updates.isEmpty then
        { output := "No date fields were updated (fields may be missing).",
          clientCalls := ["set_project_item_dates"] }
      else
        { output := "Successfully updated date fields for item " ++ item_id ++
            " in project #" ++ toString project_number ++ ":\n" ++ dateLines updates,
          clientCalls := ["set_project_item_dates"] }

/-- The filter description appended to the get_project_items messages
(server.py lines 159-163). -/
def filterDesc (state filter_field_name filter_field_value : Option String) : String :=
  if truthyOpt state then " (State: " ++ pyUpper (state.getD "") ++ ")"
  else if truthyOpt filter_field_name && truthyOpt filter_field_value then
    " (Filter: " ++ filter_field_name.getD "" ++ " = " ++ sq ++ filter_field_value.getD "" ++ sq ++ ")"
  else ""

/-- The generic first-page zero-items message of get_project_items
(server.py line 219). -/
def genericNoItemsMsg (owner : String) (project_number : Int) (fd : String) : String :=
  "No items found in project #" ++ toString project_number ++ " for " ++ owner ++ fd ++
  "\n\nNote: If the project has many items, try increasing the limit parameter to search more thoroughly."

/-- The debug message returned when the filtered field is found and is a
single-select field (server.py lines 194-201). -/
def singleSelectDebugMsg (owner : String) (project_number limit : Int) (fd : String)
    (filter_field_name filter_field_value : String) (field_info : FieldDetails) : String :=
  "No items found in project #" ++ toString project_number ++ " for " ++ owner ++ fd ++ "\n\n" ++
  "Debug info:\n" ++
  "- Found field " ++ sq ++ filter_field_name ++ sq ++ " with type " ++ sq ++ field_info.type ++ sq ++ "\n" ++
  "- Available options: " ++ pyListRepr (field_info.options.map Prod.fst) ++ "\n" ++
  "- Note: Searched up to " ++ toString limit ++ " items. If the project has many items, some " ++
    sq ++ filter_field_value ++ sq ++ " items might be beyond this scope.\n" ++
  "- Tip: Try increasing the limit parameter or check if the field value spelling is correct."

/-- The debug message returned when the filtered field is found and is an
iteration field (server.py lines 206-213). -/
def iterationDebugMsg (owner : String) (project_number limit : Int) (fd : String)
    (filter_field_name filter_field_value : String) (field_info : FieldDetails) : String :=
  "No items found in project #" ++ toString project_number ++ " for " ++ owner ++ fd ++ "\n\n" ++
  "Debug info:\n" ++
  "- Found field " ++ sq ++ filter_field_name ++ sq ++ " with type " ++ sq ++ field_info.type ++ sq ++ "\n" ++
  "- Available iterations: " ++ pyListRepr (field_info.iterations.map Prod.fst) ++ "\n" ++
  "- Note: Searched up to " ++ toString limit ++ " items. If the project has many items, some " ++
    sq ++ filter_field_value ++ sq ++ " items might be beyond this scope.\n" ++
  "- Tip: Try increasing the limit parameter or check if the field value spelling is correct."

/-- The case-insensitive first-match field lookup of the zero-result
debug path (server.py lines 182-187): iterate the field mapping in
API-declared order and keep the first name that matches up to lowercase.
Lowercasing is the ASCII part of Python str.lower, which suffices for the
field names at hand. -/
def findFieldCI (fields : FieldsDetails) (name : String) : Option FieldDetails :=
  match fields with
  | [] => none
  | (fname, finfo) :: rest =>
    if pyLower fname == pyLower name then some finfo else findFieldCI rest name

/-- The body of the zero-items, no-cursor debug block of
get_project_items (server.py lines 173-219): the auxiliary field-details
lookup result is examined; any exception it raised is swallowed (only
logged) and the generic message returned; a found field of single-select
or iteration type produces a debug message, and everything else falls
through to the generic message. -/
def zeroItemsDiagnostic (owner : String) (project_number limit : Int) (fd : String)
    (filter_field_name filter_field_value : Option String)
    (fieldsRes : Except String FieldsDetails) : String :=
  match fieldsRes with
  | .error _ => genericNoItemsMsg owner project_number fd
  | .ok fields_details =>
    match findFieldCI fields_details (filter_field_name.getD "") with
    | some field_info =>
      if field_info.type == "ProjectV2SingleSelectField" then
        singleSelectDebugMsg owner project_number limit fd
          (filter_field_name.getD "") (filter_field_value.getD "") field_info
      else if field_info.type == "ProjectV2IterationField" then
        iterationDebugMsg owner project_number limit fd
          (filter_field_name.getD "") (filter_field_value.getD "") field_info
      else genericNoItemsMsg owner project_number fd
    | none => genericNoItemsMsg owner project_number fd

/-- Shallow stand-in for the json.dumps rendering of the raw content
payload in the unknown-typename branch of the item formatter; no claim
exercises that branch, so the exact JSON text is not modelled. -/
def jsonDumpsContent : Option ItemContent → String
  | none => "\x7b\x7d"
  | some c => "\x7b" ++ pyOptStr c.typename ++ "\x7d"

/-- The field-values block of one formatted item (server.py lines
256-259): printed only when the processed mapping is non-empty. -/
def formatFieldValues (fvs : List (String × String)) : String :=
  if fvs.isEmpty then ""
  else "  Field Values:\n" ++
    String.join (fvs.map (fun kv => "    - " ++ kv.1 ++ ": " ++ kv.2 ++ "\n"))

/-- One formatted item of the get_project_items output (server.py lines
223-260), dispatching on the content typename. -/
def formatItem (item : ProjItem) : String :=
  let content := item.content
  let item_type := content.bind ItemContent.typename
  let repo_str :=
    match content.bind ItemContent.repository with
    | none => "N/A"
    | some ri => pyOptStr ri.ownerLogin ++ "/" ++ pyOptStr ri.name
  let typeBlock :=
    match item_type with
    | some t =>
      if t == "Issue" then
        "  Type: Issue #" ++ pyOptIntStr (content.bind ItemContent.number) ++ " (" ++ repo_str ++ ")\n" ++
        "  Title: " ++ pyOptStr (content.bind ItemContent.title) ++ "\n" ++
        "  State: " ++ pyOptStr (content.bind ItemContent.state) ++ "\n" ++
        "  URL: " ++ pyOptStr (content.bind ItemContent.url) ++ "\n"
      else if t == "PullRequest" then
        "  Type: PR #" ++ pyOptIntStr (content.bind ItemContent.number) ++ " (" ++ repo_str ++ ")\n" ++
        "  Title: " ++ pyOptStr (content.bind ItemContent.title) ++ "\n" ++
        "  State: " ++ pyOptStr (content.bind ItemContent.state) ++ "\n" ++
        "  URL: " ++ pyOptStr (content.bind ItemContent.url) ++ "\n"
      else if t == "DraftIssue" then
        let b := (content.bind ItemContent.body).getD ""
        "  Type: Draft Issue ID: " ++ pyOptStr (content.bind ItemContent.id) ++ "\n" ++
        "  Title: " ++ pyOptStr (content.bind ItemContent.title) ++ "\n" ++
        (if !b.isEmpty then "  Body: " ++ b.take 100 ++ "...\n" else "")
      else
        "  Type: " ++ (if t.isEmpty then "Unknown" else t) ++ "\n" ++
        "  Content: " ++ jsonDumpsContent content ++ "\n"
    | none =>
      "  Type: Unknown\n" ++ "  Content: " ++ jsonDumpsContent content ++ "\n"
  "- Item ID: " ++ item.id ++ "\n" ++ typeBlock ++ formatFieldValues item.fieldValues ++ "\n"

/-- The pagination trailer of the get_project_items output (server.py
lines 263-268), printed when there is a next page and a cursor. -/
def paginationSuffix (pinfo : PageInfo) : String :=
  if pinfo.hasNextPage && truthyOpt pinfo.endCursor then
    "\n--- Pagination ---\n" ++ "More items available: Yes\n" ++
    "Next page cursor: " ++ pinfo.endCursor.getD "" ++ "\n" ++
    "To get the next page, use the cursor parameter:\n" ++
    "cursor: " ++ pinfo.endCursor.getD "" ++ "\n"
  else ""

/-- Embeds the tool get_project_items (server.py lines 116-278).  The
both-filters validation happens before any client call; the main client
call may raise GitHubClientError or ValueError (both caught by the outer
except); the auxiliary field-details lookup happens only in the
zero-items, no-cursor, filter-present branch. -/
def get_project_items (owner : String) (project_number limit : Int)
    (state filter_field_name filter_field_value cursor : Option String)
    (itemsRes : Except ClientError ItemsPage)
    (fieldsRes : Except String FieldsDetails) : ToolResult :=
  if truthyOpt state && truthyOpt filter_field_name then
    { output := "Error: Cannot filter by both " ++ sq ++ "state" ++ sq ++
        " and a custom field (" ++ sq ++ "filter_field_name" ++ sq ++ ") simultaneously.",
      clientCalls := [] }
  else
    match itemsRes with
    | .error e =>
      { output := "Error: Could not get items for project " ++ owner ++ "/" ++
          toString project_number ++ ". Details: " ++ e.msg,
        clientCalls := ["get_project_items"] }
    | .ok page =>
      let fd := filterDesc state filter_field_name filter_field_value
      let pagination_desc := if truthyOpt cursor then " (continued)" else ""
      if page.items.isEmpty then
        if truthyOpt cursor then
          { output := "No more items found in project #" ++ toString project_number ++
              " for " ++ owner ++ fd,
            clientCalls := ["get_project_items"] }
        else if truthyOpt filter_field_name && truthyOpt filter_field_value then
          { output := zeroItemsDiagnostic owner project_number limit fd
              filter_field_name filter_field_value fieldsRes,
            clientCalls := ["get_project_items", "get_project_fields_details"] }
        else
          { output := genericNoItemsMsg owner project_number fd,
            clientCalls := ["get_project_items"] }
      else
        { output := "Items in project #" ++ toString project_number ++ " for " ++ owner ++
            fd ++ pagination_desc ++ ":\n\n" ++
            String.join (page.items.map formatItem) ++ paginationSuffix page.pageInfo,
          clientCalls := ["get_project_items"] }

/-- Embeds the tool create_issue (server.py lines 281-312). -/
def create_issue (owner repo title body : String) (assignees : Option (List String))
    (res : Except String IssueData) : ToolResult :=
  match res with
  | .error e =>
    { output := "Error: Could not create issue in " ++ owner ++ "/" ++ repo ++ ". Details: " ++ e,
      clientCalls := ["create_issue"] }
  | .ok issue =>
    let assignees_info :=
      if truthyListOpt assignees && !issue.assigneeLogins.isEmpty then
        "Assignees: " ++ String.intercalate ", " issue.assigneeLogins ++ "\n"
      else ""
    { output := "Issue created successfully!\n\n" ++
        "Repository: " ++ owner ++ "/" ++ repo ++ "\n" ++
        "Issue Number: #" ++ pyOptIntStr issue.number ++ "\n" ++
        "Title: " ++ pyOptStr issue.title ++ "\n" ++
        assignees_info ++
        "URL: " ++ pyOptStr issue.url ++ "\n",
      clientCalls := ["create_issue"] }

/-- Embeds the tool add_issue_to_project (server.py lines 315-347). -/
def add_issue_to_project (owner : String) (project_number : Int)
    (issue_owner issue_repo : String) (issue_number : Int)
    (res : Except String AddItem) : ToolResult :=
  match res with
  | .error e =>
    { output := "Error: Could not add issue to project. Details: " ++ e,
      clientCalls := ["add_issue_to_project"] }
  | .ok r =>
    { output := "Successfully added issue " ++ issue_owner ++ "/" ++ issue_repo ++ "#" ++
        toString issue_number ++ " to project #" ++ toString project_number ++ "!\n" ++
        "Item ID: " ++ pyOptStr r.id,
      clientCalls := ["add_issue_to_project"] }

/-- Embeds the tool add_issue_to_project_with_dates (server.py lines
399-456).  Only GitHubClientError is caught around the add step; the
date step catches GitHubClientError and ValueError and turns them into a
warning attached to the still-successful add result. -/
def add_issue_to_project_with_dates (owner : String) (project_number : Int)
    (issue_owner issue_repo : String) (issue_number : Int)
    (start_date end_date : Option String) (start_field_name end_field_name : String)
    (addRes : Except String AddItem)
    (datesRes : Except ClientError (List (String × String))) : ToolResult :=
  match addRes with
  | .error e =>
    { output := "Error: Could not add issue or set dates. Details: " ++ e,
      clientCalls := ["add_issue_to_project"] }
  | .ok item =>
    let item_id := item.id
    let datesAttempted := truthyOpt item_id && (truthyOpt start_date || truthyOpt end_date)
    let date_msg :=
      if datesAttempted then
        match datesRes with
        | .ok updates =>
          if !updates.isEmpty then "\nDates set:\n" ++ dateLines updates
          else "\nWarning: No date fields updated (fields may not exist)."
        | .error e => "\nWarning: Issue added but failed to set dates: " ++ e.msg
      else ""
    { output := "Successfully added issue " ++ issue_owner ++ "/" ++ issue_repo ++ "#" ++
        toString issue_number ++ " to project #" ++ toString project_number ++ "!\n" ++
        "Item ID: " ++ pyOptStr item_id ++ date_msg,
      clientCalls :=
        if datesAttempted then ["add_issue_to_project", "set_project_item_dates"]
        else ["add_issue_to_project"] }

/-- Embeds the tool create_issue_and_add_to_project (server.py lines
459-530).  Both the create step and the add step sit under one outer
except GitHubClientError that returns a single generic error string; the
date step is caught separately and becomes a warning. -/
def create_issue_and_add_to_project (owner repo : String) (project_number : Int)
    (title body : String) (assignees : Option (List String))
    (start_date end_date : Option String) (start_field_name end_field_name : String)
    (createRes : Except String IssueData) (addRes : Except String AddItem)
    (datesRes : Except ClientError (List (String × String))) : ToolResult :=
  match createRes with
  | .error e =>
    { output := "Error: Could not create/add issue or set dates. Details: " ++ e,
      clientCalls := ["create_issue"] }
  | .ok issue =>
    match addRes with
    | .error e =>
      { output := "Error: Could not create/add issue or set dates. Details: " ++ e,
        clientCalls := ["create_issue", "add_issue_to_project"] }
    | .ok item =>
      let item_id := item.id
      let datesAttempted := truthyOpt item_id && (truthyOpt start_date || truthyOpt end_date)
      let date_msg :=
        if datesAttempted then
          match datesRes with
          | .ok updates =>
            if !updates.isEmpty then "\nDates set:\n" ++ dateLines updates
            else "\nWarning: No date fields updated (fields may not exist)."
          | .error e => "\nWarning: Issue created and added but failed to set dates: " ++ e.msg
        else ""
      let assignees_info :=
        if truthyListOpt assignees && !issue.assigneeLogins.isEmpty then
          "Assignees: " ++ String.intercalate ", " issue.assigneeLogins ++ "\n"
        else ""
      { output := "Issue created and added to project successfully!\n\n" ++
          "Repository: " ++ owner ++ "/" ++ repo ++ "\n" ++
          "Issue Number: #" ++ pyOptIntStr issue.number ++ "\n" ++
          "Title: " ++ pyOptStr issue.title ++ "\n" ++
          "URL: " ++ pyOptStr issue.url ++ "\n" ++
          "Project Item ID: " ++ pyOptStr item_id ++ date_msg ++ "\n" ++
          assignees_info,
        clientCalls :=
          if datesAttempted then ["create_issue", "add_issue_to_project", "set_project_item_dates"]
          else ["create_issue", "add_issue_to_project"] }

/-- The numeric value of a list of decimal digit characters. -/
def digitsVal (cs : List Char) : Nat :=
  cs.foldl (fun acc c => acc * 10 + (c.toNat - 48)) 0

/-- Strips one optional leading sign, returning whether it was a minus
and the remaining characters. -/
def splitSign : List Char → Bool × List Char
  | '+' :: cs => (false, cs)
  | '-' :: cs => (true, cs)
  | cs => (false, cs)

/-- Parses the mantissa part of a Python float literal: digits, digits
followed by a point and optional further digits, or a point followed by
digits.  Returns all digits as one number together with the length of
the fraction part. -/
def parseMantissa (cs : List Char) : Option (Nat × Nat) :=
  let ip := cs.takeWhile Char.isDigit
  let rest := cs.dropWhile Char.isDigit
  match rest with
  | [] => if ip.isEmpty then none else some (digitsVal ip, 0)
  | '.' :: fp =>
    if fp.all Char.isDigit && !(ip.isEmpty && fp.isEmpty) then
      some (digitsVal (ip ++ fp), fp.length)
    else none
  | _ => none

/-- Parses the exponent part of a Python float literal: empty, or a
leading e or E (already checked by the caller) followed by an optionally
signed non-empty digit string. -/
def parseExp (cs : List Char) : Option Int :=
  match cs with
  | [] => some 0
  | _ :: ecs =>
    let sgn := splitSign ecs
    if !sgn.2.isEmpty && sgn.2.all Char.isDigit then
      some (if sgn.1 then -(digitsVal sgn.2 : Int) else (digitsVal sgn.2 : Int))
    else none

/-- Exact-rational idealization of the Python builtin float() applied to
a string, as used by update_project_item_field (server.py line 561):
an optionally signed decimal literal with optional fraction and optional
exponent evaluates to its exact rational value; everything else fails.
Binary rounding, the inf and nan spellings, digit-group underscores and
surrounding whitespace of the real float() are not modelled; on the
plain decimal literals the coercion is meant for, the integral-versus-
fractional classification below agrees with the source. -/
def pyFloat (s : String) : Option ℚ :=
  let sgn := splitSign s.toList
  let mantCs := sgn.2.takeWhile (fun c => !(c == 'e' || c == 'E'))
  let expCs := sgn.2.dropWhile (fun c => !(c == 'e' || c == 'E'))
  match parseMantissa mantCs with
  | none => none
  | some md =>
    match parseExp expCs with
    | none => none
    | some e =>
      let mag : ℚ :=
        match e with
        | .ofNat k => Rat.divInt (Int.ofNat (md.1 * 10 ^ k)) (Int.ofNat (10 ^ md.2))
        | .negSucc k => Rat.divInt (Int.ofNat md.1) (Int.ofNat (10 ^ md.2 * 10 ^ (k + 1)))
      some (if sgn.1 then -mag else mag)

/-- The best-effort numeric coercion of update_project_item_field
(server.py lines 559-566): try float(field_value); if that succeeds and
the value is integral, forward int(value); if it succeeds with a
fractional value, forward the float; otherwise forward the literal
string. -/
def parseFieldValue (field_value : String) : PyValue :=
  match pyFloat field_value with
  | none => PyValue.str field_value
  | some q => if q.den == 1 then PyValue.int q.num else PyValue.float q

/-- Embeds the tool update_project_item_field (server.py lines 533-583).
The client call is modelled as a function of the forwarded value so that
which value reaches the client is part of the statement. -/
def update_project_item_field (owner : String) (project_number : Int)
    (item_id field_id field_value : String)
    (client : PyValue → Except String Unit) : ToolResult :=
  let parsed_value : PyValue := parseFieldValue field_value
  match client parsed_value with
  | .error e =>
    { output := "Error: Could not update field value. Details: " ++ e,
      clientCalls := ["update_project_item_field"] }
  | .ok _ =>
    { output := "Successfully updated field for item in project #" ++ toString project_number ++
        "!\n" ++ "Item ID: " ++ item_id ++ "\n" ++ "Field ID: " ++ field_id ++ "\n" ++
        "Value Set: " ++ field_value,
      clientCalls := ["update_project_item_field"] }

/-- Embeds the tool create_draft_issue (server.py lines 586-614). -/
def create_draft_issue (owner : String) (project_number : Int) (title body : String)
    (assignees : Option (List String)) (res : Except String AddItem) : ToolResult :=
  match res with
  | .error e =>
    { output := "Error: Could not create draft issue. Details: " ++ e,
      clientCalls := ["add_draft_issue_to_project"] }
  | .ok r =>
    { output := "Successfully created draft issue in project #" ++ toString project_number ++
        "!\n" ++ "Item ID: " ++ pyOptStr r.id ++ "\n" ++ "Title: " ++ title,
      clientCalls := ["add_draft_issue_to_project"] }

/-- Embeds the tool delete_project_item (server.py lines 617-641). -/
def delete_project_item (owner : String) (project_number : Int) (item_id : String)
    (res : Except String String) : ToolResult :=
  match res with
  | .error e =>
    { output := "Error: Could not delete item. Details: " ++ e,
      clientCalls := ["delete_project_item"] }
  | .ok deleted =>
    { output := "Successfully deleted item from project #" ++ toString project_number ++
        "!\n" ++ "Deleted Item ID: " ++ deleted,
      clientCalls := ["delete_project_item"] }

/-- An empty first page of project items, as the client returns it when
nothing matches. -/
def emptyPage : ItemsPage :=
  { items := [], pageInfo := { hasNextPage := false, endCursor := none } }

/-- Concrete run for the C1 analysis: create_issue succeeds with issue
number 42 and a URL, then add_issue_to_project raises GitHubClientError
(for example because the project number does not exist). -/
def c1Run : ToolResult :=
  create_issue_and_add_to_project "octo" "repo" 5 "Fix crash" "" none none none
    "Start Date" "End Date"
    (.ok { number := some 42, title := some "Fix crash",
           url := some "https://github.com/octo/repo/issues/42", assigneeLogins := [] })
    (.error "Could not resolve to a ProjectV2 with the number 5.")
    (.ok [])

/-- Field schema for the C2 analysis: the project has a single-select
field named Status, and nothing matching the misspelled name Statas. -/
def c2Fields : FieldsDetails :=
  [("Status", { id := "F1", type := "ProjectV2SingleSelectField",
                options := [("Todo", "O1"), ("Done", "O2")], iterations := [] })]

/-- Concrete run for the C2 analysis: first-page filter on the
misspelled field name Statas yields zero items. -/
def c2Run : ToolResult :=
  get_project_items "octo" 7 50 none (some "Statas") (some "x") none
    (.ok emptyPage) (.ok c2Fields)

/-- Comparison run for the C2 analysis: the same call against a project
where a field named Statas exists but is a plain field, with a genuinely
empty filtered result. -/
def c2RunExistingField : ToolResult :=
  get_project_items "octo" 7 50 none (some "Statas") (some "x") none
    (.ok emptyPage)
    (.ok [("Statas", { id := "F2", type := "ProjectV2Field", options := [], iterations := [] })])

/-- Single-select field used by the C7 witness, the first of two fields
whose names collide up to case. -/
def c7FieldA : FieldDetails :=
  { id := "F1", type := "ProjectV2SingleSelectField",
    options := [("Todo", "O1"), ("Done", "O2")], iterations := [] }

/-- Second single-select field of the C7 witness, colliding with the
first up to case and declared later. -/
def c7FieldB : FieldDetails :=
  { id := "F2", type := "ProjectV2SingleSelectField",
    options := [("Later", "O9")], iterations := [] }

/-- A non-matching field preceding the collision pair in the C7 witness. -/
def c7FieldP : FieldDetails :=
  { id := "F0", type := "ProjectV2Field", options := [], iterations := [] }

/-- Concrete run for the C9 counterexample: the main items call succeeds
with zero items, and the auxiliary field-details lookup raises
GitHubClientError with message boom. -/
def c9Run : ToolResult :=
  get_project_items "octo" 7 50 none (some "Status") (some "Done") none
    (.ok emptyPage) (.error "boom")

/-- Truthiness of an absent optional string. -/
theorem truthyOpt_none : truthyOpt none = false := rfl

/-- The case-insensitive lookup of the zero-result debug path returns
the first entry, in declaration order, whose name matches up to
lowercase, whatever comes before or after it. -/
theorem findFieldCI_append_first (name fname : String) (fi : FieldDetails)
    (pre suf : FieldsDetails)
    (hpre : ∀ p ∈ pre, pyLower p.1 ≠ pyLower name)
    (hmatch : pyLower fname = pyLower name) :
    findFieldCI (pre ++ (fname, fi) :: suf) name = some fi := by
  induction pre with
  | nil => simp [findFieldCI, hmatch]
  | cons p ps ih =>
    have hp : (pyLower p.1 == pyLower name) = false := by
      cases hb : (pyLower p.1 == pyLower name)
      · rfl
      · exact absurd (eq_of_beq hb) (hpre p (by simp))
    simp only [List.cons_append, findFieldCI, hp, Bool.false_eq_true, if_false]
    exact ih (fun q hq => hpre q (List.mem_cons_of_mem p hq))

/-- C4: if both the state filter and the custom-field filter are passed
non-empty, get_project_items returns the both-filters validation error
and makes no client call at all. -/
theorem get_project_items_both_filters_validation :
    ∀ (owner : String) (project_number limit : Int)
      (state filter_field_name filter_field_value cursor : Option String)
      (itemsRes : Except ClientError ItemsPage) (fieldsRes : Except String FieldsDetails),
    truthyOpt state = true → truthyOpt filter_field_name = true →
    get_project_items owner project_number limit state filter_field_name filter_field_value
        cursor itemsRes fieldsRes =
      { output := "Error: Cannot filter by both " ++ sq ++ "state" ++ sq ++
          " and a custom field (" ++ sq ++ "filter_field_name" ++ sq ++ ") simultaneously.",
        clientCalls := [] } := by
  intro owner pn limit st ffn ffv cur ir fr h1 h2
  simp [get_project_items, h1, h2]

/-- Witness for C4: the validation fires on a concrete call in which the
state filter and the custom-field filter are both set to compatible
values. -/
theorem get_project_items_both_filters_validation_witness :
    get_project_items "octo" 7 50 (some "OPEN") (some "Status") (some "open") none
        (.ok emptyPage) (.ok []) =
      { output := "Error: Cannot filter by both " ++ sq ++ "state" ++ sq ++
          " and a custom field (" ++ sq ++ "filter_field_name" ++ sq ++ ") simultaneously.",
        clientCalls := [] } :=
  get_project_items_both_filters_validation "octo" 7 50 (some "OPEN") (some "Status")
    (some "open") none (.ok emptyPage) (.ok []) (by decide) (by decide)

/-- C5: a call to set_project_item_dates that supplies neither date is
rejected with the validation error before any client call. -/
theorem set_project_item_dates_requires_some_date :
    ∀ (owner : String) (project_number : Int) (item_id : String)
      (start_field_name end_field_name : String)
      (res : Except ClientError (List (String × String))),
    set_project_item_dates owner project_number item_id none none
        start_field_name end_field_name res =
      { output := "Error: Provide at least one of start_date or end_date",
        clientCalls := [] } := by
  intro owner pn iid sfn efn res
  rfl

/-- C10: empty-string dates behave exactly like absent dates in
set_project_item_dates; the call is rejected by the same validation
before any client call. -/
theorem set_project_item_dates_empty_string_dates :
    ∀ (owner : String) (project_number : Int) (item_id : String)
      (start_field_name end_field_name : String)
      (start_date end_date : Option String)
      (res : Except ClientError (List (String × String))),
    (start_date = none ∨ start_date = some "") →
    (end_date = none ∨ end_date = some "") →
    set_project_item_dates owner project_number item_id start_date end_date
        start_field_name end_field_name res =
      set_project_item_dates owner project_number item_id none none
        start_field_name end_field_name res ∧
    (set_project_item_dates owner project_number item_id start_date end_date
        start_field_name end_field_name res).output =
      "Error: Provide at least one of start_date or end_date" := by
  intro owner pn iid sfn efn sd ed res hsd hed
  rcases hsd with h | h <;> rcases hed with h2 | h2 <;> subst h <;> subst h2 <;>
    exact ⟨rfl, rfl⟩

/-- Witness for C10: both dates passed as empty strings on a concrete
call, with a client oracle that would have reported an update. -/
theorem set_project_item_dates_empty_string_dates_witness :
    set_project_item_dates "octo" 7 "ITEM" (some "") (some "") "Start Date" "End Date"
        (.ok [("Start Date", "2024-01-01")]) =
      set_project_item_dates "octo" 7 "ITEM" none none "Start Date" "End Date"
        (.ok [("Start Date", "2024-01-01")]) ∧
    (set_project_item_dates "octo" 7 "ITEM" (some "") (some "") "Start Date" "End Date"
        (.ok [("Start Date", "2024-01-01")])).output =
      "Error: Provide at least one of start_date or end_date" :=
  set_project_item_dates_empty_string_dates "octo" 7 "ITEM" "Start Date" "End Date"
    (some "") (some "") (.ok [("Start Date", "2024-01-01")]) (Or.inr rfl) (Or.inr rfl)

/-- C1 (code bug): when create_issue succeeds and add_issue_to_project
raises a client error, the returned text is only the generic error
string; it mentions neither the created issue number nor its URL, and
carries no note that the linking step is what failed. -/
theorem create_issue_and_add_to_project_drops_issue_identity :
    c1Run.output =
      "Error: Could not create/add issue or set dates. Details: Could not resolve to a ProjectV2 with the number 5." ∧
    strContains c1Run.output "42" = false ∧
    strContains c1Run.output "https://github.com/octo/repo/issues/42" = false ∧
    strContains c1Run.output "link" = false := by
  decide

/-- C2 (code bug): filtering on a field name that does not exist on the
project yields, on the first page with zero items, the generic no-items
message: it never says the field was not found, carries no debug block,
and is byte-for-byte the message produced for a genuinely empty result
on an existing plain field of the same name. -/
theorem get_project_items_missing_field_generic_message :
    c2Run.output =
      "No items found in project #7 for octo (Filter: Statas = " ++ sq ++ "x" ++ sq ++
        ")\n\nNote: If the project has many items, try increasing the limit parameter to search more thoroughly." ∧
    strContains c2Run.output "not found" = false ∧
    strContains c2Run.output "Debug info" = false ∧
    c2RunExistingField.output = c2Run.output := by
  decide

/-- C3: in add_issue_to_project_with_dates, a client error from the add
step makes the whole call return the error result, while a client or
validation error from the date step after a successful add yields the
successful add result, with the new item identifier, plus a warning
about the date failure instead of an overall error. -/
theorem add_issue_to_project_with_dates_partial_failure :
    ∀ (owner : String) (project_number : Int) (issue_owner issue_repo : String)
      (issue_number : Int) (start_date end_date : Option String)
      (start_field_name end_field_name : String) (iid m : String) (e : ClientError)
      (datesRes : Except ClientError (List (String × String))),
    add_issue_to_project_with_dates owner project_number issue_owner issue_repo issue_number
        start_date end_date start_field_name end_field_name (.error m) datesRes =
      { output := "Error: Could not add issue or set dates. Details: " ++ m,
        clientCalls := ["add_issue_to_project"] } ∧
    (iid.isEmpty = false → (truthyOpt start_date || truthyOpt end_date) = true →
      add_issue_to_project_with_dates owner project_number issue_owner issue_repo issue_number
          start_date end_date start_field_name end_field_name (.ok { id := some iid })
          (.error e) =
        { output := "Successfully added issue " ++ issue_owner ++ "/" ++ issue_repo ++ "#" ++
            toString issue_number ++ " to project #" ++ toString project_number ++ "!\n" ++
            "Item ID: " ++ iid ++
            ("\nWarning: Issue added but failed to set dates: " ++ e.msg),
          clientCalls := ["add_issue_to_project", "set_project_item_dates"] }) := by
  intro owner pn io ir inum sd ed sfn efn iid m e dr
  refine ⟨rfl, ?_⟩
  intro h1 h2
  have hid : truthyOpt (some iid) = true := by simp [truthyOpt, h1]
  simp [add_issue_to_project_with_dates, hid, h2, pyOptStr]

/-- Witness for C3: a concrete run in which the add step succeeds with
item ID NEWITEM and the date step raises a client error; the result is
the success text carrying the warning, and it does not start with the
error marker. -/
theorem add_issue_to_project_with_dates_partial_failure_witness :
    add_issue_to_project_with_dates "octo" 7 "octo" "repo" 42 (some "2024-01-01") none
        "Start Date" "End Date" (.ok { id := some "NEWITEM" })
        (.error (.githubClientError "field missing")) =
      { output := "Successfully added issue " ++ "octo" ++ "/" ++ "repo" ++ "#" ++
          toString (42 : Int) ++ " to project #" ++ toString (7 : Int) ++ "!\n" ++
          "Item ID: " ++ "NEWITEM" ++
          ("\nWarning: Issue added but failed to set dates: " ++
            ClientError.msg (.githubClientError "field missing")),
        clientCalls := ["add_issue_to_project", "set_project_item_dates"] } ∧
    add_issue_to_project_with_dates "octo" 7 "octo" "repo" 42 (some "2024-01-01") none
        "Start Date" "End Date" (.error "boom") (.ok []) =
      { output := "Error: Could not add issue or set dates. Details: " ++ "boom",
        clientCalls := ["add_issue_to_project"] } ∧
    strIsPrefixOf "Error:"
      (add_issue_to_project_with_dates "octo" 7 "octo" "repo" 42 (some "2024-01-01") none
        "Start Date" "End Date" (.ok { id := some "NEWITEM" })
        (.error (.githubClientError "field missing"))).output = false ∧
    strContains
      (add_issue_to_project_with_dates "octo" 7 "octo" "repo" 42 (some "2024-01-01") none
        "Start Date" "End Date" (.ok { id := some "NEWITEM" })
        (.error (.githubClientError "field missing"))).output "NEWITEM" = true :=
  ⟨(add_issue_to_project_with_dates_partial_failure "octo" 7 "octo" "repo" 42
      (some "2024-01-01") none "Start Date" "End Date" "NEWITEM" "boom"
      (.githubClientError "field missing") (.ok [])).2 (by decide) (by decide),
   (add_issue_to_project_with_dates_partial_failure "octo" 7 "octo" "repo" 42
      (some "2024-01-01") none "Start Date" "End Date" "NEWITEM" "boom"
      (.githubClientError "field missing") (.ok [])).1,
   by decide, by decide⟩

/-- C6: on a zero-item result under a custom-field filter, the auxiliary
field-details lookup happens exactly when no cursor was supplied; with a
cursor the call just returns the plain no-more-items message. -/
theorem get_project_items_diagnostic_first_page_only :
    ∀ (owner : String) (project_number limit : Int)
      (filter_field_name filter_field_value cursor : Option String)
      (page : ItemsPage) (fieldsRes : Except String FieldsDetails),
    truthyOpt filter_field_name = true → truthyOpt filter_field_value = true →
    page.items = [] →
    (List.contains
        (get_project_items owner project_number limit none filter_field_name
          filter_field_value cursor (.ok page) fieldsRes).clientCalls
        "get_project_fields_details" = !truthyOpt cursor) ∧
    (truthyOpt cursor = true →
      (get_project_items owner project_number limit none filter_field_name
          filter_field_value cursor (.ok page) fieldsRes).output =
        "No more items found in project #" ++ toString project_number ++ " for " ++ owner ++
          filterDesc none filter_field_name filter_field_value) := by
  intro owner pn limit ffn ffv cur page fr h1 h2 h3
  constructor
  · cases hc : truthyOpt cur
    · simp [get_project_items, truthyOpt_none, h1, h2, h3, hc]
      try decide
    · simp [get_project_items, truthyOpt_none, h1, h2, h3, hc]
      try decide
  · intro hc
    simp [get_project_items, truthyOpt_none, h1, h2, h3, hc]

/-- Witness for C6: with a cursor the plain message comes back and the
lookup is absent from the calls; without a cursor the lookup is made. -/
theorem get_project_items_diagnostic_first_page_only_witness :
    (List.contains
        (get_project_items "octo" 7 50 none (some "Status") (some "Done") (some "CUR")
          (.ok emptyPage) (.ok [])).clientCalls
        "get_project_fields_details" = !truthyOpt (some "CUR")) ∧
    ((get_project_items "octo" 7 50 none (some "Status") (some "Done") (some "CUR")
        (.ok emptyPage) (.ok [])).output =
      "No more items found in project #" ++ toString (7 : Int) ++ " for " ++ "octo" ++
        filterDesc none (some "Status") (some "Done")) ∧
    (List.contains
        (get_project_items "octo" 7 50 none (some "Status") (some "Done") none
          (.ok emptyPage) (.ok [])).clientCalls
        "get_project_fields_details" = !truthyOpt (none : Option String)) := by
  have T1 := get_project_items_diagnostic_first_page_only "octo" 7 50 (some "Status")
    (some "Done") (some "CUR") emptyPage (.ok []) (by decide) (by decide) rfl
  have T2 := get_project_items_diagnostic_first_page_only "octo" 7 50 (some "Status")
    (some "Done") none emptyPage (.ok []) (by decide) (by decide) rfl
  exact ⟨T1.1, T1.2 (by decide), T2.1⟩

/-- C7: in the zero-result diagnostic path the filter field name is
resolved case-insensitively against the field mapping, the first entry
in declaration order winning on a collision, and the debug message
reports that entry through its type and its option or iteration names. -/
theorem get_project_items_field_lookup_first_ci_match :
    ∀ (owner : String) (project_number limit : Int)
      (filter_field_name filter_field_value : Option String) (page : ItemsPage)
      (pre suf : FieldsDetails) (fname : String) (fi : FieldDetails),
    truthyOpt filter_field_name = true → truthyOpt filter_field_value = true →
    page.items = [] →
    pyLower fname = pyLower (filter_field_name.getD "") →
    (∀ p ∈ pre, pyLower p.1 ≠ pyLower (filter_field_name.getD "")) →
    findFieldCI (pre ++ (fname, fi) :: suf) (filter_field_name.getD "") = some fi ∧
    (fi.type = "ProjectV2SingleSelectField" →
      (get_project_items owner project_number limit none filter_field_name
          filter_field_value none (.ok page) (.ok (pre ++ (fname, fi) :: suf))).output =
        singleSelectDebugMsg owner project_number limit
          (filterDesc none filter_field_name filter_field_value)
          (filter_field_name.getD "") (filter_field_value.getD "") fi) ∧
    (fi.type = "ProjectV2IterationField" →
      (get_project_items owner project_number limit none filter_field_name
          filter_field_value none (.ok page) (.ok (pre ++ (fname, fi) :: suf))).output =
        iterationDebugMsg owner project_number limit
          (filterDesc none filter_field_name filter_field_value)
          (filter_field_name.getD "") (filter_field_value.getD "") fi) := by
  intro owner pn limit ffn ffv page pre suf fname fi h1 h2 h3 hm hpre
  have hfind := findFieldCI_append_first (ffn.getD "") fname fi pre suf hpre hm
  refine ⟨hfind, ?_, ?_⟩
  · intro ht
    simp [get_project_items, truthyOpt_none, h1, h2, h3, zeroItemsDiagnostic, hfind, ht]
  · intro ht
    have hne : (("ProjectV2IterationField" : String) == "ProjectV2SingleSelectField") = false := by
      decide
    simp [get_project_items, truthyOpt_none, h1, h2, h3, zeroItemsDiagnostic, hfind, ht, hne]

/-- Witness for C7: three fields, the second and third colliding up to
case with the requested name Status; the first collision entry in
declaration order is resolved and its options are the ones reported. -/
theorem get_project_items_field_lookup_first_ci_match_witness :
    findFieldCI ([("Priority", c7FieldP)] ++ ("STATUS", c7FieldA) :: [("status", c7FieldB)])
        ((some "Status").getD "") = some c7FieldA ∧
    (get_project_items "octo" 7 50 none (some "Status") (some "Done") none (.ok emptyPage)
        (.ok ([("Priority", c7FieldP)] ++ ("STATUS", c7FieldA) :: [("status", c7FieldB)]))).output =
      singleSelectDebugMsg "octo" 7 50 (filterDesc none (some "Status") (some "Done"))
        ((some "Status").getD "") ((some "Done").getD "") c7FieldA := by
  have T := get_project_items_field_lookup_first_ci_match "octo" 7 50 (some "Status")
    (some "Done") emptyPage [("Priority", c7FieldP)] [("status", c7FieldB)] "STATUS" c7FieldA
    (by decide) (by decide) rfl (by decide) (by decide)
  exact ⟨T.1, T.2.1 (by decide)⟩

/-- C8: update_project_item_field forwards to the client the best-effort
coercion of the string value: the integer when it parses as an integral
number, the fractional number when it parses as a non-integral one, and
the literal string otherwise. -/
theorem update_project_item_field_value_coercion :
    ∀ (field_value : String),
    (pyFloat field_value = none → parseFieldValue field_value = PyValue.str field_value) ∧
    (∀ q : ℚ, pyFloat field_value = some q → q.den = 1 →
      parseFieldValue field_value = PyValue.int q.num) ∧
    (∀ q : ℚ, pyFloat field_value = some q → q.den ≠ 1 →
      parseFieldValue field_value = PyValue.float q) ∧
    (∀ (owner : String) (project_number : Int) (item_id field_id : String)
        (client : PyValue → Except String Unit),
      update_project_item_field owner project_number item_id field_id field_value client =
        match client (parseFieldValue field_value) with
        | .error e =>
          { output := "Error: Could not update field value. Details: " ++ e,
            clientCalls := ["update_project_item_field"] }
        | .ok _ =>
          { output := "Successfully updated field for item in project #" ++
              toString project_number ++ "!\n" ++ "Item ID: " ++ item_id ++ "\n" ++
              "Field ID: " ++ field_id ++ "\n" ++ "Value Set: " ++ field_value,
            clientCalls := ["update_project_item_field"] }) := by
  intro v
  refine ⟨?_, ?_, ?_, ?_⟩
  · intro h; simp [parseFieldValue, h]
  · intro q hq hden; simp [parseFieldValue, hq, hden]
  · intro q hq hden
    have hb : (q.den == 1) = false := by
      cases hb : (q.den == 1)
      · rfl
      · exact absurd (eq_of_beq hb) hden
    simp [parseFieldValue, hq, hb]
  · intro o pn iid fid client; rfl

/-- Witness for C8: the string 2.0 is forwarded as the integer 2, the
string 2.5 as the rational five halves, and a non-numeric string as
itself. -/
theorem update_project_item_field_value_coercion_witness :
    parseFieldValue "2.0" = PyValue.int (Rat.divInt 2 1).num ∧
    parseFieldValue "2.5" = PyValue.float (Rat.divInt 5 2) ∧
    parseFieldValue "abc" = PyValue.str "abc" :=
  ⟨(update_project_item_field_value_coercion "2.0").2.1 (Rat.divInt 2 1)
      (by decide) (by decide),
   (update_project_item_field_value_coercion "2.5").2.2.1 (Rat.divInt 5 2)
      (by decide) (by decide),
   (update_project_item_field_value_coercion "abc").1 (by decide)⟩

/-- Counterexample to C9 as stated: when the auxiliary field-details
lookup of the zero-result diagnostic path raises GitHubClientError, the
tool swallows it and returns the generic no-items message, which neither
begins with the error marker nor contains the message of the raised
error. -/
theorem get_project_items_diagnostic_error_swallowed :
    strIsPrefixOf "Error:" c9Run.output = false ∧
    strContains c9Run.output "boom" = false ∧
    c9Run.output =
      "No items found in project #7 for octo (Filter: Status = " ++ sq ++ "Done" ++ sq ++
        ")\n\nNote: If the project has many items, try increasing the limit parameter to search more thoroughly." ∧
    c9Run.clientCalls = ["get_project_items", "get_project_fields_details"] := by
  decide

/-- C9 as amended: no client error escapes a tool as an exception, and
whenever the failing client call determines the overall result the tool
returns the error string with the Error: marker and the original
message; the exceptions the code forces are the auxiliary diagnostic
lookup of get_project_items, whose client error is swallowed in favour
of the generic no-items message, and the date-setting step of the two
composed mutations, whose client or validation error becomes a warning
inside a still-successful result. -/
theorem tool_client_errors_reported :
    ∀ (owner repo issue_owner issue_repo item_id field_id field_value title body
        start_field_name end_field_name iid m : String)
      (project_number issue_number limit : Int)
      (assignees : Option (List String)) (issue : IssueData)
      (start_date end_date state filter_field_name filter_field_value cursor : Option String)
      (e : ClientError),
    ((list_projects owner (.error m)).output =
      "Error: Could not list projects for " ++ owner ++ ". Details: " ++ m) ∧
    ((get_project_fields owner project_number (.error m)).output =
      "Error: Could not get fields for project " ++ owner ++ "/" ++
        toString project_number ++ ". Details: " ++ m) ∧
    (truthyOpt state = false →
      (get_project_items owner project_number limit state filter_field_name
          filter_field_value cursor (.error e) (.ok [])).output =
        "Error: Could not get items for project " ++ owner ++ "/" ++
          toString project_number ++ ". Details: " ++ e.msg) ∧
    ((create_issue owner repo title body assignees (.error m)).output =
      "Error: Could not create issue in " ++ owner ++ "/" ++ repo ++ ". Details: " ++ m) ∧
    ((add_issue_to_project owner project_number issue_owner issue_repo issue_number
        (.error m)).output = "Error: Could not add issue to project. Details: " ++ m) ∧
    (truthyOpt start_date = true →
      (set_project_item_dates owner project_number item_id start_date end_date
          start_field_name end_field_name (.error e)).output =
        "Error: Could not set dates. Details: " ++ e.msg) ∧
    ((add_issue_to_project_with_dates owner project_number issue_owner issue_repo
        issue_number start_date end_date start_field_name end_field_name (.error m)
        (.ok [])).output =
      "Error: Could not add issue or set dates. Details: " ++ m) ∧
    (iid.isEmpty = false → truthyOpt start_date = true →
      (add_issue_to_project_with_dates owner project_number issue_owner issue_repo
          issue_number start_date end_date start_field_name end_field_name
          (.ok { id := some iid }) (.error e)).output =
        "Successfully added issue " ++ issue_owner ++ "/" ++ issue_repo ++ "#" ++
          toString issue_number ++ " to project #" ++ toString project_number ++ "!\n" ++
          "Item ID: " ++ iid ++
          ("\nWarning: Issue added but failed to set dates: " ++ e.msg)) ∧
    ((create_issue_and_add_to_project owner repo project_number title body assignees
        start_date end_date start_field_name end_field_name (.error m)
        (.ok { id := none }) (.ok [])).output =
      "Error: Could not create/add issue or set dates. Details: " ++ m) ∧
    ((create_issue_and_add_to_project owner repo project_number title body assignees
        start_date end_date start_field_name end_field_name (.ok issue) (.error m)
        (.ok [])).output =
      "Error: Could not create/add issue or set dates. Details: " ++ m) ∧
    (iid.isEmpty = false → truthyOpt start_date = true →
      (create_issue_and_add_to_project owner repo project_number title body none
          start_date end_date start_field_name end_field_name (.ok issue)
          (.ok { id := some iid }) (.error e)).output =
        "Issue created and added to project successfully!\n\n" ++
          "Repository: " ++ owner ++ "/" ++ repo ++ "\n" ++
          "Issue Number: #" ++ pyOptIntStr issue.number ++ "\n" ++
          "Title: " ++ pyOptStr issue.title ++ "\n" ++
          "URL: " ++ pyOptStr issue.url ++ "\n" ++
          "Project Item ID: " ++ iid ++
          ("\nWarning: Issue created and added but failed to set dates: " ++ e.msg) ++
          "\n" ++ "") ∧
    ((update_project_item_field owner project_number item_id field_id field_value
        (fun _ => .error m)).output =
      "Error: Could not update field value. Details: " ++ m) ∧
    ((create_draft_issue owner project_number title body assignees (.error m)).output =
      "Error: Could not create draft issue. Details: " ++ m) ∧
    ((delete_project_item owner project_number item_id (.error m)).output =
      "Error: Could not delete item. Details: " ++ m) ∧
    (truthyOpt filter_field_name = true → truthyOpt filter_field_value = true →
      (get_project_items owner project_number limit none filter_field_name
          filter_field_value none (.ok emptyPage) (.error m)).output =
        genericNoItemsMsg owner project_number
          (filterDesc none filter_field_name filter_field_value)) := by
  intro owner repo io ir item_id field_id fv title body sfn efn iid m pn inum limit
    assignees issue sd ed st ffn ffv cur e
  refine ⟨rfl, rfl, ?_, rfl, rfl, ?_, rfl, ?_, rfl, rfl, ?_, rfl, rfl, rfl, ?_⟩
  · intro h
    simp [get_project_items, h]
  · intro h
    simp [set_project_item_dates, h]
  · intro h1 h2
    have hid : truthyOpt (some iid) = true := by simp [truthyOpt, h1]
    simp [add_issue_to_project_with_dates, hid, h2, pyOptStr]
  · intro h1 h2
    have hid : truthyOpt (some iid) = true := by simp [truthyOpt, h1]
    simp [create_issue_and_add_to_project, hid, h2, pyOptStr, truthyListOpt]
  · intro h1 h2
    simp [get_project_items, truthyOpt_none, h1, h2, zeroItemsDiagnostic, emptyPage]

/-- Witness for the amended C9 at concrete inputs, exercising every
hypothesis-bearing branch: the main items-call error, the date
validation error surfaced by set_project_item_dates, the warning paths
of the two composed mutations, and the swallowed diagnostic lookup
error. -/
theorem tool_client_errors_reported_witness :
    ((list_projects "octo" (.error "boom")).output =
      "Error: Could not list projects for " ++ "octo" ++ ". Details: " ++ "boom") ∧
    ((get_project_items "octo" 7 50 none (some "Status") (some "Done") none
        (.error (.valueError "bad filter")) (.ok [])).output =
      "Error: Could not get items for project " ++ "octo" ++ "/" ++ toString (7 : Int) ++
        ". Details: " ++ ClientError.msg (.valueError "bad filter")) ∧
    ((set_project_item_dates "octo" 7 "ITEM" (some "2024-01-01") none "Start Date"
        "End Date" (.error (.valueError "bad filter"))).output =
      "Error: Could not set dates. Details: " ++ ClientError.msg (.valueError "bad filter")) ∧
    ((add_issue_to_project_with_dates "octo" 7 "octo" "repo" 42 (some "2024-01-01")
        none "Start Date" "End Date" (.ok { id := some "NEW" })
        (.error (.valueError "bad filter"))).output =
      "Successfully added issue " ++ "octo" ++ "/" ++ "repo" ++ "#" ++ toString (42 : Int) ++
        " to project #" ++ toString (7 : Int) ++ "!\n" ++ "Item ID: " ++ "NEW" ++
        ("\nWarning: Issue added but failed to set dates: " ++
          ClientError.msg (.valueError "bad filter"))) ∧
    ((create_issue_and_add_to_project "octo" "repo" 7 "T" "" none (some "2024-01-01") none
        "Start Date" "End Date"
        (.ok { number := some 1, title := some "T", url := some "U", assigneeLogins := [] })
        (.ok { id := some "NEW" }) (.error (.valueError "bad filter"))).output =
      "Issue created and added to project successfully!\n\n" ++
        "Repository: " ++ "octo" ++ "/" ++ "repo" ++ "\n" ++
        "Issue Number: #" ++
          pyOptIntStr (IssueData.number
            { number := some 1, title := some "T", url := some "U", assigneeLogins := [] }) ++
          "\n" ++
        "Title: " ++
          pyOptStr (IssueData.title
            { number := some 1, title := some "T", url := some "U", assigneeLogins := [] }) ++
          "\n" ++
        "URL: " ++
          pyOptStr (IssueData.url
            { number := some 1, title := some "T", url := some "U", assigneeLogins := [] }) ++
          "\n" ++
        "Project Item ID: " ++ "NEW" ++
        ("\nWarning: Issue created and added but failed to set dates: " ++
          ClientError.msg (.valueError "bad filter")) ++ "\n" ++ "") ∧
    ((get_project_items "octo" 7 50 none (some "Status") (some "Done") none
        (.ok emptyPage) (.error "boom")).output =
      genericNoItemsMsg "octo" 7 (filterDesc none (some "Status") (some "Done"))) := by
  have T := tool_client_errors_reported "octo" "repo" "octo" "repo" "ITEM" "FID" "5" "T" ""
    "Start Date" "End Date" "NEW" "boom" 7 42 50 none
    { number := some 1, title := some "T", url := some "U", assigneeLogins := [] }
    (some "2024-01-01") none none (some "Status") (some "Done") none
    (.valueError "bad filter")
  obtain ⟨h1, h2, h3, h4, h5, h6, h7, h8, h9, h10, h11, h12, h13, h14, h15⟩ := T
  exact ⟨h1, h3 (by decide), h6 (by decide), h8 (by decide) (by decide),
    h11 (by decide) (by decide), h15 (by decide) (by decide)⟩

end GithubProjectsMcp
